import Mathlib

/-!
Verification development for the TranslatorJHU backend: a shallow embedding
of the real-time session / pipeline orchestration layer (WebSocket handler,
translation pipeline, STT / translation / TTS services, and the standalone
test servers), together with theorems settling the specification claims.

Bytes are modelled as `Nat`, buffers (`Buffer` in Node) as `List Nat`,
maps as association lists, and floating-point confidence values as `Nat`
scaled by 100 (0.95 becomes 95); no claim depends on confidence arithmetic.
-/

/-- Byte buffer: a Node `Buffer` is an ordered list of bytes; only lengths
matter to the claims. -/
abbrev ByteBuf := List Nat

/-! ## working-server.js : connection-local audio buffering

`wss.on('connection')` keeps, per connection, `audioBuffer : Buffer[]` and
`isRecording : boolean` (working-server.js lines 26-28). -/

/-- Connection-local state of working-server.js (lines 26-28). -/
structure WSState where
  audioBuffer : List ByteBuf
  isRecording : Bool
  deriving Repr, DecidableEq

/-- Outbound JSON messages sent by working-server.js to its client.
`confidence` is scaled by 100 (the source sends 0.95). -/
inductive WSOut
  | transcriptionMsg (text : String) (confidence : Nat) (language : String)
  | translationMsg (translatedText : String) (sourceLanguage targetLanguage : String)
  deriving Repr, DecidableEq

/-- Size-ladder mock transcription of working-server.js lines 71-86: the
combined byte length selects a canned (transcription, translation) pair. -/
def sizeTranscription (len : Nat) : String × String :=
  if len < 200 then ("hello", "hola")
  else if len < 400 then ("hi there", "hola ahí")
  else if len < 600 then ("how are you", "¿cómo estás?")
  else if len < 800 then ("good morning", "buenos días")
  else ("this is a test", "esto es una prueba")

/-- Silence threshold of working-server.js line 45: frames of at most 15
bytes are classified as silence and dropped. -/
def silenceThreshold : Nat := 15

/-- Binary-frame branch of the working-server.js message handler
(lines 33-125): ignore when not recording; drop frames of at most 15 bytes
(silence); otherwise buffer the frame and, once the buffer holds at least 2
chunks, combine them, emit the mock transcription and translation messages,
and clear the buffer. Returns the new state and the emitted messages. -/
def wsHandleBinary (st : WSState) (frame : ByteBuf) : WSState × List WSOut :=
  if !st.isRecording then (st, [])
  else if frame.length ≤ silenceThreshold then (st, [])
  else
    let buf := st.audioBuffer ++ [frame]
    if buf.length ≥ 2 then
      let combinedLen := (buf.map List.length).sum
      let tt := sizeTranscription combinedLen
      ({ st with audioBuffer := [] },
        [WSOut.transcriptionMsg tt.1 95 "en-US",
         WSOut.translationMsg tt.2 "en-US" "es"])
    else ({ st with audioBuffer := buf }, [])

/-! ## simple-test-server.js : inactivity-timer flush

The first server in simple-test-server.js buffers frames larger than 15
bytes and, on expiry of a 2-second inactivity timeout, combines the buffer
and either discards it (when shorter than `minAudioLength`) or hands it to
the STT provider (`transcriptionService.transcribeAudio`, line 315). -/

/-- Minimum-viable-audio threshold of simple-test-server.js line 298
(`const minAudioLength = 8000`). -/
def minAudioLength : Nat := 8000

/-- Whether the inactivity-timeout flush of simple-test-server.js
(lines 286-315) invokes the STT provider on the buffered audio: the timer
body runs only when the buffer is non-empty, and `transcribeAudio` is
reached exactly when the combined length is not below `minAudioLength`
(shorter segments are cleared and dropped at lines 299-303). -/
def simpleTestFlushCallsSTT (audioBuffer : List ByteBuf) : Bool :=
  if audioBuffer.length > 0 then
    decide ((audioBuffer.map List.length).sum ≥ minAudioLength)
  else false

/-! ## TranslationService (translationService.ts)

Per-session context and the `translate` method. The Gemini calls are
modelled as oracles: `primary` is the result of the contextual
`generateContent` call (`none` means the call threw), `fallback` the result
of `fallbackTranslation` (`none` means it threw too, in which case
`translate` returns `null`). -/

/-- Per-session context of TranslationService (`SessionContext`): the
glossary is an association list keyed by lower-cased terms. -/
structure SessionContext where
  sessionId : String
  sourceLanguage : String
  targetLanguage : String
  conversationHistory : List String
  glossary : List (String × String)
  lastTranslation : String
  deriving Repr, DecidableEq

/-- Last `n` elements of a list, as `conversationHistory.slice(-20)`. -/
def takeLast (n : Nat) (l : List α) : List α :=
  l.drop (l.length - n)

/-- History update performed by `TranslationService.translate` after a
successful contextual translation: push the source and target lines, then
keep only the last 20 entries when the history exceeds 20. -/
def translateUpdateHistory (s : SessionContext) (text translated : String) :
    SessionContext :=
  let h := s.conversationHistory ++
    [s.sourceLanguage ++ ": " ++ text, s.targetLanguage ++ ": " ++ translated]
  { s with
    conversationHistory := if h.length > 20 then takeLast 20 h else h,
    lastTranslation := translated }

/-- Result and context update of `TranslationService.translate` (session
already initialized): on primary success the history is updated and the
text returned; on primary failure the fallback result is returned without
touching the history; when both fail the method returns `null` (`none`)
rather than throwing. -/
def translateModel (s : SessionContext) (text : String)
    (primary fallback : Option String) : Option String × SessionContext :=
  match primary with
  | some t => (some t, translateUpdateHistory s text t)
  | none => (fallback, s)

/-! ## STTService (sttService.ts) and the pipeline (translationPipeline.ts) -/

/-- Transcription result of sttService.ts (`TranscriptionResult`);
`confidence` scaled by 100. -/
structure TranscriptionResult where
  id : String
  text : String
  confidence : Nat
  isFinal : Bool
  timestamp : Nat
  deriving Repr, DecidableEq

/-- Translation result delivered by the pipeline (`TranslationResult`);
`audioData` is the optional synthesized audio. -/
structure TranslationResult where
  captionId : String
  translatedText : String
  confidence : Nat
  audioData : Option ByteBuf
  deriving Repr, DecidableEq

/-- One entry of `TranslationPipeline.sessions` (`SessionData` of
translationPipeline.ts lines 21-27): language pair, chunk buffer and
last-processed timestamp. The structure carries no lock, queue, or
in-flight flag. -/
structure SessionData where
  sessionId : String
  sourceLanguage : String
  targetLanguage : String
  audioBuffer : List ByteBuf
  lastProcessedTime : Nat
  deriving Repr, DecidableEq

/-- Outcome of `STTService.processAudio` for a session already present in
the service's map (sttService.ts lines 164-183): writing to the stream may
throw (rethrown by the catch), and otherwise the method returns `null` —
results are only delivered later through the stream's `data` events. An
absent session is first initialized (lines 158-162) and the call retried;
initialization itself throws when the speech client is unavailable.
`fuel` bounds the retry recursion; `canInit` says whether
`initializeSession` succeeds; `writeThrows` whether the stream write
throws. Returns the transcription result (an `Except` for the throw) and
the updated set of session ids. -/
def sttProcessAudio (fuel : Nat) (canInit writeThrows : Bool)
    (sessions : List String) (sid : String) :
    Except Unit (Option TranscriptionResult × List String) :=
  match fuel with
  | 0 => Except.error ()
  | fuel + 1 =>
    if sid ∈ sessions then
      if writeThrows then Except.error ()
      else Except.ok (none, sessions)
    else
      if canInit then sttProcessAudio fuel canInit writeThrows (sid :: sessions) sid
      else Except.error ()

/-- Calls the pipeline makes into the three capability services. -/
inductive ServiceCall
  | stt (audio : ByteBuf)
  | translate (text : String)
  | tts (text : String)
  deriving Repr, DecidableEq

/-- Events the pipeline delivers to its caller through the
`onTranscription` / `onTranslation` callbacks. -/
inductive PipelineEvent
  | transcription (r : TranscriptionResult)
  | translation (r : TranslationResult)
  deriving Repr, DecidableEq

/-- Whitespace predicate of `String.prototype.trim`. -/
def isWhitespaceChar (c : Char) : Bool :=
  c = ' ' || c = '\t' || c = '\n' || c = '\r'

/-- Truthiness of `text.trim()` in the pipeline's guard: the trimmed string
is non-empty exactly when some character is not whitespace. -/
def trimmedNonempty (s : String) : Bool :=
  s.data.any fun c => !isWhitespaceChar c

/-- Result of one `processAudioChunk` run: the service calls made, the
callback events emitted (in order), the updated translation context, and
whether the run rethrew an error (`threw`). -/
structure PipelineOutcome where
  calls : List ServiceCall
  events : List PipelineEvent
  ctx : SessionContext
  threw : Bool
  deriving Repr, DecidableEq

/-- Stage structure of `TranslationPipeline.processAudioChunk`
(translationPipeline.ts lines 101-152), with the three provider calls as
oracles: `stt` is the outcome of `sttService.processAudio` (error = the
call threw, propagated by the catch at line 150), `primary` / `fallback`
feed `translationService.translate`, and `tts` is the outcome of
`ttsService.synthesize` (`none` = all TTS providers failed, which yields a
translation event without audio, not an error). Every chunk is passed to
the STT service unconditionally — there is no minimum-length check. The
transcription callback fires before any translation work; translation runs
only for final, non-blank transcriptions; the translation event's
`captionId` is the transcription's `id`. -/
def processAudioChunk (audio : ByteBuf)
    (stt : Except Unit (Option TranscriptionResult))
    (primary fallback : Option String) (tts : Option ByteBuf)
    (ctx : SessionContext) : PipelineOutcome :=
  match stt with
  | Except.error _ => ⟨[ServiceCall.stt audio], [], ctx, true⟩
  | Except.ok none => ⟨[ServiceCall.stt audio], [], ctx, false⟩
  | Except.ok (some tr) =>
    if tr.isFinal && trimmedNonempty tr.text then
      match translateModel ctx tr.text primary fallback with
      | (some t, ctx2) =>
        ⟨[ServiceCall.stt audio, ServiceCall.translate tr.text, ServiceCall.tts t],
         [PipelineEvent.transcription tr,
          PipelineEvent.translation ⟨tr.id, t, 90, tts⟩],
         ctx2, false⟩
      | (none, ctx2) =>
        ⟨[ServiceCall.stt audio, ServiceCall.translate tr.text],
         [PipelineEvent.transcription tr], ctx2, false⟩
    else ⟨[ServiceCall.stt audio], [PipelineEvent.transcription tr], ctx, false⟩

/-! ## WebSocketHandler (websocketHandler.ts)

Client table, control-message dispatch, and the binary-audio path. Effects
record outbound events and calls into the TranslationPipeline. -/

/-- Per-client state of the WebSocketHandler (`ClientSession`,
websocketHandler.ts lines 12-20); `lastActivity` is a millisecond
timestamp. -/
structure ClientSession where
  sessionId : Option String
  sourceLanguage : String
  targetLanguage : String
  isRecording : Bool
  lastActivity : Nat
  deriving Repr, DecidableEq

/-- Server-to-client events serialized by the WebSocketHandler. -/
inductive OutEvent
  | sessionStarted (sessionId sourceLanguage targetLanguage : String)
  | sessionStopped
  | audioStarted
  | audioStopped
  | configUpdated (sourceLanguage targetLanguage : String)
  | transcriptionEv (r : TranscriptionResult)
  | translationEv (r : TranslationResult)
  | errorMsg (e : String)
  deriving Repr, DecidableEq

/-- Observable effects of a WebSocketHandler handler: an outbound event to
a client, or a call into the TranslationPipeline. -/
inductive Effect
  | send (clientId : String) (ev : OutEvent)
  | pipelineStartSession (sessionId sourceLanguage targetLanguage : String)
  | pipelineStopSession (sessionId : String)
  | pipelineFlush (sessionId : String)
  | pipelineSilence (sessionId : String) (timestamp : Nat)
  | pipelineProcessChunk (clientId : String) (audio : ByteBuf)
  deriving Repr, DecidableEq

/-- Client table of the WebSocketHandler (`clients : Map<string,
ClientSession>`) as an association list keyed by client id. -/
abbrev ClientTable := List (String × ClientSession)

/-- Update the entry of one client in place, leaving every other entry (and
the key set) unchanged — the handlers mutate the looked-up object. -/
def updateClient (t : ClientTable) (cid : String)
    (f : ClientSession → ClientSession) : ClientTable :=
  t.map fun p => if p.1 = cid then (p.1, f p.2) else p

/-- Control messages dispatched by `handleMessage` (the `switch` on
`message.type` at websocketHandler.ts lines 96-124); `unknown` covers the
`default` branch. Optional payload fields are `Option`s. -/
inductive ClientMessage
  | sessionStart (sessionId : Option String) (src tgt : Option String)
  | sessionStop
  | audioStart
  | audioStop
  | audioSilence (timestamp : Nat)
  | configUpdate (src tgt : Option String)
  | unknown (msgType : String)
  deriving Repr, DecidableEq

/-- Dispatcher `WebSocketHandler.handleMessage` plus the individual
handlers (websocketHandler.ts lines 90-264), for a client already looked up
on the table (an absent client returns silently at line 92). Oracles:
`freshId` is the uuid generated when `session:start` carries no id, and
`pipelineOk` whether the awaited pipeline call of `session:start` /
`session:stop` resolves (its rejection is caught and reported as an error
event). Returns the updated table and the effects in order. -/
def handleMessage (t : ClientTable) (cid : String) (m : ClientMessage)
    (freshId : String) (pipelineOk : Bool) : ClientTable × List Effect :=
  match List.lookup cid t with
  | none => (t, [])
  | some c =>
    match m with
    | ClientMessage.sessionStart msid msrc mtgt =>
      let sid := msid.getD freshId
      let src := msrc.getD "en"
      let tgt := mtgt.getD "es"
      let t2 := updateClient t cid fun c0 =>
        { c0 with sessionId := some sid, sourceLanguage := src, targetLanguage := tgt }
      if pipelineOk then
        (t2, [Effect.pipelineStartSession sid src tgt,
              Effect.send cid (OutEvent.sessionStarted sid src tgt)])
      else
        (t2, [Effect.pipelineStartSession sid src tgt,
              Effect.send cid (OutEvent.errorMsg "Failed to start session")])
    | ClientMessage.sessionStop =>
      match c.sessionId with
      | none => (t, [])
      | some sid =>
        if pipelineOk then
          (updateClient t cid fun c0 =>
            { c0 with sessionId := none, isRecording := false },
           [Effect.pipelineStopSession sid,
            Effect.send cid OutEvent.sessionStopped])
        else
          (t, [Effect.pipelineStopSession sid,
               Effect.send cid (OutEvent.errorMsg "Failed to stop session")])
    | ClientMessage.audioStart =>
      match c.sessionId with
      | none => (t, [Effect.send cid (OutEvent.errorMsg "No active session")])
      | some _ =>
        (updateClient t cid fun c0 => { c0 with isRecording := true },
         [Effect.send cid OutEvent.audioStarted])
    | ClientMessage.audioStop =>
      let t2 := updateClient t cid fun c0 => { c0 with isRecording := false }
      let flushes := match c.sessionId with
        | some sid => [Effect.pipelineFlush sid]
        | none => []
      (t2, flushes ++ [Effect.send cid OutEvent.audioStopped])
    | ClientMessage.audioSilence ts =>
      match c.sessionId with
      | none => (t, [])
      | some sid => (t, [Effect.pipelineSilence sid ts])
    | ClientMessage.configUpdate msrc mtgt =>
      let src := msrc.getD c.sourceLanguage
      let tgt := mtgt.getD c.targetLanguage
      (updateClient t cid fun c0 =>
        { c0 with sourceLanguage := src, targetLanguage := tgt },
       [Effect.send cid (OutEvent.configUpdated src tgt)])
    | ClientMessage.unknown mt =>
      (t, [Effect.send cid (OutEvent.errorMsg ("Unknown message type: " ++ mt))])

/-- Binary-frame path of the `ws.on('message')` wrapper (websocketHandler.ts
lines 50-70) composed with `handleAudioData` (lines 127-151): an absent or
non-recording client returns without invoking the pipeline; otherwise the
chunk is processed and the resulting callback events are sent (a pipeline
rejection is caught and reported as an error event). After the handler the
wrapper refreshes the client's `lastActivity` to `now`. `outcome` is the
pipeline run's outcome for this chunk. -/
def onBinaryMessage (t : ClientTable) (cid : String) (frame : ByteBuf)
    (outcome : PipelineOutcome) (now : Nat) : ClientTable × List Effect :=
  match List.lookup cid t with
  | none => (t, [])
  | some c =>
    let bump := fun (tbl : ClientTable) =>
      updateClient tbl cid fun c0 => { c0 with lastActivity := now }
    if !c.isRecording then (bump t, [])
    else
      let evs :=
        if outcome.threw then
          [Effect.send cid (OutEvent.errorMsg "Audio processing failed")]
        else
          outcome.events.map fun e =>
            match e with
            | PipelineEvent.transcription r =>
              Effect.send cid (OutEvent.transcriptionEv r)
            | PipelineEvent.translation r =>
              Effect.send cid (OutEvent.translationEv r)
      (bump t, Effect.pipelineProcessChunk cid frame :: evs)

/-- `TranslationPipeline.flushSession` (translationPipeline.ts lines
154-168): when the session id is present in the pipeline's map, the STT
stream is flushed — unconditionally in the buffered amount; the session's
`audioBuffer` is never examined. Returns the STT flush calls made. -/
def pipelineFlushSession (sessions : List (String × SessionData))
    (sid : String) : List String :=
  match List.lookup sid sessions with
  | none => []
  | some _ => [sid]

/-! ## Per-session concurrency of `processAudioChunk`

`ws.on('message')` spawns one async handler per incoming frame without
awaiting the previous one, so two `processAudioChunk` runs for the same
session can be pending at once. The suspension points of a run are its
`await`s (the STT, translation and TTS calls); between two awaits the code
runs as one synchronous continuation that the event loop never splits. In
particular the `onTranscription` callback, the finality guard and the
issuance of the `translate` call form a single continuation
(translationPipeline.ts lines 109-120 — `translate`'s body runs
synchronously up to its first internal await when its session exists), as
do the TTS-call issuance once translation resolves and the `onTranslation`
emit once TTS resolves. `SessionData` (above) holds no lock, queue or
in-flight flag and `processAudioChunk` consults no other synchronization
state, so at every suspension point the event loop may resume either
pending run — advancing a run is never guarded. The scheduler below is
that semantics for two runs, at continuation (block) granularity. -/

/-- Observable stages of one `processAudioChunk` run, in program order:
the three provider calls and the two callback emits. -/
inductive Stage
  | sttCall
  | emitTranscription
  | translateCall
  | ttsCall
  | emitTranslation
  deriving Repr, DecidableEq

/-- Atomic blocks of one full `processAudioChunk` run
(translationPipeline.ts lines 101-141): the synchronous continuations
delimited by the run's `await`s. The transcription emit and the
translate-call issuance share a block, since no suspension point separates
them. -/
def pipelineRunBlocks : List (List Stage) :=
  [[Stage.sttCall],
   [Stage.emitTranscription, Stage.translateCall],
   [Stage.ttsCall],
   [Stage.emitTranslation]]

/-- Run the event loop under a schedule: at each step the schedule picks
one of the two pending runs (`false` = first, `true` = second), which then
executes its next atomic block to completion — a block is never split, and
there is no guard on the pick, since the code keeps no per-session lock.
The result is the observed stage trace, or `none` when the schedule picks
a run that has already finished or stops before both runs have. -/
def execSched : List Bool → List (List Stage) → List (List Stage) →
    Option (List (Bool × Stage))
  | [], [], [] => some []
  | [], _ :: _, _ => none
  | [], [], _ :: _ => none
  | pick :: rest, a, b =>
    if pick then
      match b with
      | [] => none
      | blk :: b2 =>
        (execSched rest a b2).map fun tr =>
          blk.map (fun st => (true, st)) ++ tr
    else
      match a with
      | [] => none
      | blk :: a2 =>
        (execSched rest a2 b).map fun tr =>
          blk.map (fun st => (false, st)) ++ tr

/-- A schedule is serial when one run's turns are contiguous before the
other's: nothing of one run falls between two blocks of the other. -/
def serialSched (s : List Bool) : Bool :=
  (s = List.replicate (s.count false) false ++ List.replicate (s.count true) true)
  || (s = List.replicate (s.count true) true ++ List.replicate (s.count false) false)

/-- The strictly alternating schedule of two four-block runs. -/
def altSched : List Bool :=
  [false, true, false, true, false, true, false, true]

/-! ## Helper lemmas -/

/-- Unfolding of `updateClient` at a cons cell. -/
theorem updateClient_cons (a : String) (v : ClientSession) (rest : ClientTable)
    (cid : String) (f : ClientSession → ClientSession) :
    updateClient ((a, v) :: rest) cid f
      = (a, if a = cid then f v else v) :: updateClient rest cid f := by
  by_cases h : a = cid <;> simp [updateClient, h]

/-- Looking up the updated client returns the modified session. -/
theorem lookup_updateClient_self (t : ClientTable) (cid : String)
    (f : ClientSession → ClientSession) :
    ∀ c, List.lookup cid t = some c →
      List.lookup cid (updateClient t cid f) = some (f c) := by
  induction t with
  | nil => intro c h; simp at h
  | cons p rest ih =>
    intro c h
    obtain ⟨a, v⟩ := p
    rw [updateClient_cons]
    by_cases ha : a = cid
    · subst ha
      rw [List.lookup_cons_self] at h
      cases h
      simp
    · have hne : (cid == a) = false := by
        simp [beq_iff_eq]; exact fun hh => ha hh.symm
      rw [List.lookup_cons, hne] at h
      rw [List.lookup_cons, hne]
      exact ih c h

/-- Updating one client never adds or removes table entries. -/
theorem lookup_updateClient_isSome (t : ClientTable) (cid k : String)
    (f : ClientSession → ClientSession) :
    (List.lookup k (updateClient t cid f)).isSome =
      (List.lookup k t).isSome := by
  induction t with
  | nil => rfl
  | cons p rest ih =>
    obtain ⟨a, v⟩ := p
    rw [updateClient_cons, List.lookup_cons, List.lookup_cons]
    cases hk : (k == a) <;> simp [ih]

/-- `STTService.processAudio` either throws or resolves to `null`: no
execution returns a transcription result directly. -/
theorem sttProcessAudio_cases (fuel : Nat) (canInit writeThrows : Bool)
    (sessions : List String) (sid : String) :
    sttProcessAudio fuel canInit writeThrows sessions sid = Except.error () ∨
      ∃ s2, sttProcessAudio fuel canInit writeThrows sessions sid =
        Except.ok (none, s2) := by
  induction fuel generalizing sessions with
  | zero => exact Or.inl rfl
  | succ n ih =>
    by_cases hm : sid ∈ sessions
    · by_cases hw : writeThrows = true
      · exact Or.inl (by simp [sttProcessAudio, hm, hw])
      · exact Or.inr ⟨sessions, by simp [sttProcessAudio, hm, hw]⟩
    · by_cases hc : canInit = true
      · have := ih (sid :: sessions)
        simpa [sttProcessAudio, hm, hc] using this
      · exact Or.inl (by simp [sttProcessAudio, hm, hc])

/-- Any schedule giving each run exactly as many turns as it has atomic
blocks is admissible: the executor has no guard that could reject it. -/
theorem execSched_isSome_of_counts (s : List Bool) :
    ∀ a b : List (List Stage),
      s.count false = a.length → s.count true = b.length →
      (execSched s a b).isSome := by
  induction s with
  | nil =>
    intro a b ha hb
    simp at ha hb
    cases a with
    | nil =>
      cases b with
      | nil => simp [execSched]
      | cons x xs => simp at hb
    | cons x xs => simp at ha
  | cons pick rest ih =>
    intro a b ha hb
    cases pick with
    | false =>
      simp [List.count_cons] at ha hb
      cases a with
      | nil => simp at ha
      | cons s1 a2 =>
        simp [execSched]
        have : (execSched rest a2 b).isSome := by
          apply ih <;> simp at ha ⊢ <;> omega
        rcases Option.isSome_iff_exists.mp this with ⟨tr, htr⟩
        simp [htr]
    | true =>
      simp [List.count_cons] at ha hb
      cases b with
      | nil => simp at hb
      | cons s1 b2 =>
        simp [execSched]
        have : (execSched rest a b2).isSome := by
          apply ih <;> simp at hb ⊢ <;> omega
        rcases Option.isSome_iff_exists.mp this with ⟨tr, htr⟩
        simp [htr]

/-! ## Concrete fixtures used by witnesses and counterexamples -/

/-- Empty translation context of a fresh session. -/
def ctx0 : SessionContext :=
  ⟨"client1_session", "en", "es", [], [], ""⟩

/-- Final transcription result used in concrete runs. -/
def tr0 : TranscriptionResult :=
  ⟨"cap1", "hello world", 80, true, 1000⟩

/-- One-client table: connected, defaults, no session, not recording. -/
def table0 : ClientTable :=
  [("c1", ⟨none, "en", "es", false, 0⟩)]

/-- One-client table with an active session, recording. -/
def tableRec : ClientTable :=
  [("c1", ⟨some "s1", "en", "es", true, 0⟩)]

/-- A 16-byte audio frame (just above the silence threshold). -/
def frame16 : ByteBuf := List.replicate 16 1

/-! ## Claims -/

/-- Claim C5: a binary frame whose byte size is at or below the silence
threshold (15 bytes) is dropped without being buffered — the state
(including the in-progress segment) is unchanged and nothing is emitted, so
such a frame neither starts nor extends a segment. -/
theorem silence_frames_never_buffered (st : WSState) (frame : ByteBuf)
    (h : frame.length ≤ silenceThreshold) :
    wsHandleBinary st frame = (st, []) := by
  cases hr : st.isRecording <;> simp [wsHandleBinary, hr, h]

/-- Witness for C5: a 10-byte frame arriving while a segment is in
progress leaves the segment and the output untouched. -/
theorem silence_frames_never_buffered_witness :
    (List.replicate 10 0 : ByteBuf).length ≤ silenceThreshold ∧
      wsHandleBinary ⟨[frame16], true⟩ (List.replicate 10 0)
        = (⟨[frame16], true⟩, []) :=
  ⟨by decide,
   silence_frames_never_buffered ⟨[frame16], true⟩ (List.replicate 10 0)
     (by decide)⟩

/-- Claim C8: after every completed translation the conversation history
holds at most 20 entries (10 exchange pairs), and eviction removes the
oldest entries first — the updated history is a suffix of the old history
with the new pair appended. -/
theorem conversationHistory_bounded (s : SessionContext)
    (text translated : String) :
    (translateUpdateHistory s text translated).conversationHistory.length ≤ 20 ∧
      (translateUpdateHistory s text translated).conversationHistory <:+
        (s.conversationHistory ++
          [s.sourceLanguage ++ ": " ++ text,
           s.targetLanguage ++ ": " ++ translated]) := by
  simp only [translateUpdateHistory, takeLast]
  constructor
  · split
    · rename_i hgt
      simp at hgt ⊢
      omega
    · rename_i hle
      simp only [not_lt] at hle
      simpa using hle
  · split
    · exact List.drop_suffix _ _
    · exact List.suffix_refl _

/-- Claim C4: in every pipeline run, any translation event is preceded in
the emitted event sequence by a transcription event whose id is the
translation's `captionId` — transcription strictly precedes its
translation, and every `captionId` references a previously emitted
transcription of the same run. -/
theorem translation_references_prior_transcription (audio : ByteBuf)
    (stt : Except Unit (Option TranscriptionResult))
    (primary fallback : Option String) (tts : Option ByteBuf)
    (ctx : SessionContext) (k : Nat) (r : TranslationResult)
    (hk : (processAudioChunk audio stt primary fallback tts ctx).events[k]?
      = some (PipelineEvent.translation r)) :
    ∃ j e, j < k ∧
      (processAudioChunk audio stt primary fallback tts ctx).events[j]?
        = some (PipelineEvent.transcription e) ∧ e.id = r.captionId := by
  match stt with
  | Except.error u => simp [processAudioChunk] at hk
  | Except.ok none => simp [processAudioChunk] at hk
  | Except.ok (some tr) =>
    by_cases hfin : (tr.isFinal && trimmedNonempty tr.text) = true
    · rcases hp : translateModel ctx tr.text primary fallback with ⟨res, ctx2⟩
      cases res with
      | some tgot =>
        simp only [processAudioChunk, hfin, hp] at hk ⊢
        match k with
        | 0 => simp at hk
        | 1 =>
          refine ⟨0, tr, by omega, by simp, ?_⟩
          simp at hk
          rw [← hk]
        | n + 2 => simp at hk
      | none =>
        simp only [processAudioChunk, hfin, hp] at hk
        match k with
        | 0 => simp at hk
        | n + 1 => simp at hk
    · simp only [processAudioChunk, hfin] at hk
      rw [if_neg] at hk
      · match k with
        | 0 => simp at hk
        | n + 1 => simp at hk
      · simp [hfin]

/-- Witness for C4: a concrete run with a successful translation emits the
transcription at index 0 and the translation at index 1, and the
translation's `captionId` matches. -/
theorem translation_references_prior_transcription_witness :
    ∃ j e, j < 1 ∧
      (processAudioChunk frame16 (Except.ok (some tr0)) (some "hola mundo")
        none none ctx0).events[j]?
        = some (PipelineEvent.transcription e) ∧
      e.id = (⟨"cap1", "hola mundo", 90, none⟩ : TranslationResult).captionId :=
  translation_references_prior_transcription frame16 (Except.ok (some tr0))
    (some "hola mundo") none none ctx0 1 ⟨"cap1", "hola mundo", 90, none⟩
    (by decide)

/-- Claim C9: `STTService.processAudio` either throws or resolves to
`null` — it never returns a transcription result directly — and
consequently, when `processAudioChunk` consumes its result, the run emits
no events and calls no service beyond the STT write: the non-null branch
(translation, TTS, callbacks) is unreachable. -/
theorem processAudio_resolves_null (fuel : Nat) (canInit writeThrows : Bool)
    (sessions : List String) (sid : String) (audio : ByteBuf)
    (primary fallback : Option String) (tts : Option ByteBuf)
    (ctx : SessionContext) :
    (sttProcessAudio fuel canInit writeThrows sessions sid = Except.error () ∨
      ∃ s2, sttProcessAudio fuel canInit writeThrows sessions sid =
        Except.ok (none, s2)) ∧
    (processAudioChunk audio
      ((sttProcessAudio fuel canInit writeThrows sessions sid).map Prod.fst)
      primary fallback tts ctx).events = [] ∧
    (processAudioChunk audio
      ((sttProcessAudio fuel canInit writeThrows sessions sid).map Prod.fst)
      primary fallback tts ctx).calls = [ServiceCall.stt audio] := by
  have hc := sttProcessAudio_cases fuel canInit writeThrows sessions sid
  refine ⟨hc, ?_, ?_⟩ <;>
    rcases hc with h | ⟨s2, h⟩ <;> simp [h, Except.map, processAudioChunk]

/-- Claim C10: a binary audio frame for an absent client id leaves the
table untouched and produces no effect at all; for a present client whose
recording flag is false, no pipeline call and no event is produced and the
only state change is the client's `lastActivity` timestamp. -/
theorem audioData_ignored_when_not_recording (t : ClientTable) (cid : String)
    (frame : ByteBuf) (outcome : PipelineOutcome) (now : Nat) :
    (List.lookup cid t = none →
      onBinaryMessage t cid frame outcome now = (t, [])) ∧
    (∀ c, List.lookup cid t = some c → c.isRecording = false →
      onBinaryMessage t cid frame outcome now =
        (updateClient t cid fun c0 => { c0 with lastActivity := now }, [])) := by
  constructor
  · intro h
    simp [onBinaryMessage, h]
  · intro c hc hr
    simp [onBinaryMessage, hc, hr]

/-- Witness for C10: a frame for the connected-but-not-recording client of
`table0` bumps only `lastActivity` and produces no effects. -/
theorem audioData_ignored_when_not_recording_witness :
    onBinaryMessage table0 "c1" frame16 ⟨[], [], ctx0, false⟩ 77
      = (updateClient table0 "c1" fun c0 => { c0 with lastActivity := 77 }, []) :=
  (audioData_ignored_when_not_recording table0 "c1" frame16
    ⟨[], [], ctx0, false⟩ 77).2 ⟨none, "en", "es", false, 0⟩ (by decide) rfl

/-- Claim C6: handling `audio:stop` for a connected client sets the
recording flag to false and, whenever the client has a session id, issues a
pipeline flush for it; and the pipeline's `flushSession` flushes the STT
stream for every registered session regardless of the contents (hence the
length) of its audio buffer, so the flush is forced even below the
minimum-viable-audio threshold. -/
theorem audioStop_forces_flush (t : ClientTable) (cid freshId : String)
    (pOk : Bool) (c : ClientSession) (hc : List.lookup cid t = some c) :
    List.lookup cid (handleMessage t cid ClientMessage.audioStop freshId pOk).1
      = some { c with isRecording := false } ∧
    (∀ sid, c.sessionId = some sid →
      Effect.pipelineFlush sid ∈
        (handleMessage t cid ClientMessage.audioStop freshId pOk).2) ∧
    (∀ sid sessions sd, List.lookup sid sessions = some sd →
      pipelineFlushSession sessions sid = [sid]) := by
  refine ⟨?_, ?_, ?_⟩
  · simp only [handleMessage, hc]
    exact lookup_updateClient_self t cid _ c hc
  · intro sid hsid
    simp [handleMessage, hc, hsid]
  · intro sid sessions sd hsd
    simp [pipelineFlushSession, hsd]

/-- Witness for C6: stopping audio for the recording client of `tableRec`
clears the flag and flushes session "s1", and `flushSession` flushes a
session whose buffer holds a single 10-byte chunk (far below
`minAudioLength`). -/
theorem audioStop_forces_flush_witness :
    List.lookup "c1"
      (handleMessage tableRec "c1" ClientMessage.audioStop "f" true).1
      = some ⟨some "s1", "en", "es", false, 0⟩ ∧
    Effect.pipelineFlush "s1" ∈
      (handleMessage tableRec "c1" ClientMessage.audioStop "f" true).2 ∧
    pipelineFlushSession [("s1", ⟨"s1", "en", "es", [List.replicate 10 2], 0⟩)]
      "s1" = ["s1"] := by
  have h := audioStop_forces_flush tableRec "c1" "f" true
    ⟨some "s1", "en", "es", true, 0⟩ (by decide)
  exact ⟨h.1, h.2.1 "s1" rfl,
    h.2.2 "s1" [("s1", ⟨"s1", "en", "es", [List.replicate 10 2], 0⟩)]
      ⟨"s1", "en", "es", [List.replicate 10 2], 0⟩ (by decide)⟩

/-- Counterexample for C7: a `session:stop` received while no session is
active returns silently — no error event (indeed no event at all) is sent,
contradicting the claim that every handler other than
`session:start`/`connect` reports unmet preconditions explicitly. -/
theorem sessionStop_silent_cex :
    handleMessage table0 "c1" ClientMessage.sessionStop "f" true
      = (table0, []) := by decide

/-- Claim C7 (amended): unknown message types and `audio:start` without an
active session do produce explicit error events, and no control message
ever removes the client from the table; but `session:stop` and
`audio:silence` with unmet preconditions return silently, emitting no
event at all. -/
theorem precondition_error_reporting (t : ClientTable) (cid : String)
    (c : ClientSession) (freshId : String) (pOk : Bool)
    (hc : List.lookup cid t = some c) :
    (∀ mt, handleMessage t cid (ClientMessage.unknown mt) freshId pOk
      = (t, [Effect.send cid
              (OutEvent.errorMsg ("Unknown message type: " ++ mt))])) ∧
    (c.sessionId = none →
      handleMessage t cid ClientMessage.audioStart freshId pOk
        = (t, [Effect.send cid (OutEvent.errorMsg "No active session")])) ∧
    (c.sessionId = none →
      handleMessage t cid ClientMessage.sessionStop freshId pOk = (t, [])) ∧
    (c.sessionId = none → ∀ ts,
      handleMessage t cid (ClientMessage.audioSilence ts) freshId pOk
        = (t, [])) ∧
    (∀ m k, (List.lookup k t).isSome →
      (List.lookup k (handleMessage t cid m freshId pOk).1).isSome) := by
  refine ⟨?_, ?_, ?_, ?_, ?_⟩
  · intro mt; simp [handleMessage, hc]
  · intro hn; simp [handleMessage, hc, hn]
  · intro hn; simp [handleMessage, hc, hn]
  · intro hn ts; simp [handleMessage, hc, hn]
  · intro m k hk
    cases m with
    | sessionStart msid msrc mtgt =>
      cases pOk <;> simp [handleMessage, hc, lookup_updateClient_isSome, hk]
    | sessionStop =>
      cases hcs : c.sessionId with
      | none => simpa [handleMessage, hc, hcs] using hk
      | some sid =>
        cases pOk <;>
          simp [handleMessage, hc, hcs, lookup_updateClient_isSome, hk]
    | audioStart =>
      cases hcs : c.sessionId with
      | none => simpa [handleMessage, hc, hcs] using hk
      | some sid => simp [handleMessage, hc, hcs, lookup_updateClient_isSome, hk]
    | audioStop => simp [handleMessage, hc, lookup_updateClient_isSome, hk]
    | audioSilence ts =>
      cases hcs : c.sessionId with
      | none => simpa [handleMessage, hc, hcs] using hk
      | some sid => simpa [handleMessage, hc, hcs] using hk
    | configUpdate msrc mtgt =>
      simp [handleMessage, hc, lookup_updateClient_isSome, hk]
    | unknown mt => simpa [handleMessage, hc] using hk

/-- Witness for C7 (amended): on the sessionless client of `table0`, an
unknown message and `audio:start` yield error events, `audio:silence`
yields nothing, and the client entry survives. -/
theorem precondition_error_reporting_witness :
    handleMessage table0 "c1" (ClientMessage.unknown "bogus") "f" true
      = (table0, [Effect.send "c1"
          (OutEvent.errorMsg "Unknown message type: bogus")]) ∧
    handleMessage table0 "c1" ClientMessage.audioStart "f" true
      = (table0, [Effect.send "c1" (OutEvent.errorMsg "No active session")]) ∧
    handleMessage table0 "c1" (ClientMessage.audioSilence 9) "f" true
      = (table0, []) ∧
    (List.lookup "c1"
      (handleMessage table0 "c1" ClientMessage.audioStart "f" true).1).isSome := by
  have h := precondition_error_reporting table0 "c1"
    ⟨none, "en", "es", false, 0⟩ "f" true (by decide)
  refine ⟨?_, h.2.1 rfl, h.2.2.2.1 rfl 9, h.2.2.2.2 ClientMessage.audioStart "c1" (by decide)⟩
  have := h.1 "bogus"
  simpa using this

/-- Counterexample for C3: a pipeline run in which every translation
attempt fails (primary and fallback both throw, so the capability is
exhausted) returns `null` from `translate`; the run completes without
throwing, emits only the transcription, and the client receives no error
event — the exhaustion is silently dropped, contradicting the claim that a
typed `AllProvidersExhausted` error is reported to the client. -/
theorem providers_exhausted_silent_cex :
    processAudioChunk frame16 (Except.ok (some tr0)) none none none ctx0
      = ⟨[ServiceCall.stt frame16, ServiceCall.translate "hello world"],
         [PipelineEvent.transcription tr0], ctx0, false⟩ ∧
    (onBinaryMessage tableRec "c1" frame16
      (processAudioChunk frame16 (Except.ok (some tr0)) none none none ctx0)
      5).2
      = [Effect.pipelineProcessChunk "c1" frame16,
         Effect.send "c1" (OutEvent.transcriptionEv tr0)] := by decide

/-- Claim C3 (amended): when every translation provider fails, `translate`
resolves to `null` and the pipeline run completes normally: it emits only
the transcription event — no translation event and no error event reach
the client — and the session state is left unchanged, so the session stays
alive for the next segment. (TTS exhaustion likewise only omits the audio
from the translation event; only a thrown STT error produces a generic
"Audio processing failed" error event.) -/
theorem providers_exhausted_silent (audio : ByteBuf)
    (tr : TranscriptionResult) (tts : Option ByteBuf) (ctx : SessionContext)
    (t : ClientTable) (cid : String) (c : ClientSession) (now : Nat)
    (hfin : (tr.isFinal && trimmedNonempty tr.text) = true)
    (hc : List.lookup cid t = some c) (hr : c.isRecording = true) :
    processAudioChunk audio (Except.ok (some tr)) none none tts ctx
      = ⟨[ServiceCall.stt audio, ServiceCall.translate tr.text],
         [PipelineEvent.transcription tr], ctx, false⟩ ∧
    (onBinaryMessage t cid audio
      (processAudioChunk audio (Except.ok (some tr)) none none tts ctx)
      now).2
      = [Effect.pipelineProcessChunk cid audio,
         Effect.send cid (OutEvent.transcriptionEv tr)] := by
  have hout : processAudioChunk audio (Except.ok (some tr)) none none tts ctx
      = ⟨[ServiceCall.stt audio, ServiceCall.translate tr.text],
         [PipelineEvent.transcription tr], ctx, false⟩ := by
    simp [processAudioChunk, hfin, translateModel]
  refine ⟨hout, ?_⟩
  rw [hout]
  simp [onBinaryMessage, hc, hr]

/-- Witness for C3 (amended): the concrete exhausted run of the
counterexample's shape, through the recording client of `tableRec`. -/
theorem providers_exhausted_silent_witness :
    processAudioChunk frame16 (Except.ok (some tr0)) none none none ctx0
      = ⟨[ServiceCall.stt frame16, ServiceCall.translate "hello world"],
         [PipelineEvent.transcription tr0], ctx0, false⟩ ∧
    (onBinaryMessage tableRec "c1" frame16
      (processAudioChunk frame16 (Except.ok (some tr0)) none none none ctx0)
      7).2
      = [Effect.pipelineProcessChunk "c1" frame16,
         Effect.send "c1" (OutEvent.transcriptionEv tr0)] := by
  have h := providers_exhausted_silent frame16 tr0 none ctx0 tableRec "c1"
    ⟨some "s1", "en", "es", true, 0⟩ 7 (by decide) (by decide) rfl
  simpa using h

/-- Counterexample for C2: in the working-server flush, two 16-byte frames
(each above the silence threshold) trigger a flush at the 2-chunk mark and
the 32-byte combined segment is handed to the transcription step and
answered, although 32 bytes is far below the minimum-viable-audio
threshold (8000) — a too-short segment is not discarded and does reach the
provider layer. -/
theorem short_segment_reaches_stt_cex :
    wsHandleBinary ⟨[], true⟩ frame16 = (⟨[frame16], true⟩, []) ∧
    wsHandleBinary ⟨[frame16], true⟩ frame16
      = (⟨[], true⟩,
         [WSOut.transcriptionMsg "hello" 95 "en-US",
          WSOut.translationMsg "hola" "en-US" "es"]) ∧
    frame16.length + frame16.length < minAudioLength := by decide

/-- Claim C2 (amended): no byte-length condition governs the cited flush
paths — the working-server flush fires exactly when the buffer reaches two
chunks and always emits the transcription of the combined segment,
whatever its byte length, and `processAudioChunk` forwards every chunk to
the STT service unconditionally; the minimum-viable-audio threshold exists
only in the simple test server's inactivity flush, where the segment
reaches the STT provider iff the buffer is non-empty and its combined
length is at least `minAudioLength` (8000 bytes). -/
theorem flush_ignores_min_threshold (st : WSState) (frame : ByteBuf)
    (hr : st.isRecording = true) (hf : frame.length > silenceThreshold)
    (hb : st.audioBuffer.length + 1 ≥ 2) :
    (wsHandleBinary st frame).2
      = [WSOut.transcriptionMsg
          (sizeTranscription
            (((st.audioBuffer ++ [frame]).map List.length).sum)).1 95 "en-US",
         WSOut.translationMsg
          (sizeTranscription
            (((st.audioBuffer ++ [frame]).map List.length).sum)).2
          "en-US" "es"] ∧
    (∀ (audio : ByteBuf) (stt : Except Unit (Option TranscriptionResult))
      (primary fallback : Option String) (tts : Option ByteBuf)
      (ctx : SessionContext),
      ServiceCall.stt audio ∈
        (processAudioChunk audio stt primary fallback tts ctx).calls) ∧
    (∀ buf : List ByteBuf, simpleTestFlushCallsSTT buf = true ↔
      buf ≠ [] ∧ (buf.map List.length).sum ≥ minAudioLength) := by
  refine ⟨?_, ?_, ?_⟩
  · have h1 : ¬ frame.length ≤ silenceThreshold := by omega
    have h2 : (st.audioBuffer ++ [frame]).length ≥ 2 := by simp; omega
    have h3 : 1 ≤ st.audioBuffer.length := by omega
    simp [wsHandleBinary, hr, h1, h2, h3]
  · intro audio stt primary fallback tts ctx
    match stt with
    | Except.error u => simp [processAudioChunk]
    | Except.ok none => simp [processAudioChunk]
    | Except.ok (some tr) =>
      by_cases hfin : (tr.isFinal && trimmedNonempty tr.text) = true
      · rcases hp : translateModel ctx tr.text primary fallback with ⟨res, ctx2⟩
        cases res <;> simp [processAudioChunk, hfin, hp]
      · simp [processAudioChunk, hfin]
  · intro buf
    cases buf with
    | nil => simp [simpleTestFlushCallsSTT]
    | cons x xs => simp [simpleTestFlushCallsSTT]

/-- Witness for C2 (amended): the 2-chunk flush of two 16-byte frames
emits the 32-byte segment's transcription; a concrete pipeline run makes
its STT call; and the simple-test-server criterion instantiated at a
one-chunk 16-byte buffer. -/
theorem flush_ignores_min_threshold_witness :
    (wsHandleBinary ⟨[frame16], true⟩ frame16).2
      = [WSOut.transcriptionMsg
          (sizeTranscription ((([frame16] ++ [frame16]).map List.length).sum)).1
          95 "en-US",
         WSOut.translationMsg
          (sizeTranscription ((([frame16] ++ [frame16]).map List.length).sum)).2
          "en-US" "es"] ∧
    ServiceCall.stt frame16 ∈
      (processAudioChunk frame16 (Except.ok (some tr0)) none none none
        ctx0).calls ∧
    (simpleTestFlushCallsSTT [frame16] = true ↔
      [frame16] ≠ [] ∧ ([frame16].map List.length).sum ≥ minAudioLength) := by
  have h := flush_ignores_min_threshold ⟨[frame16], true⟩ frame16 rfl
    (by decide) (by decide)
  exact ⟨h.1, h.2.1 frame16 (Except.ok (some tr0)) none none none ctx0,
    h.2.2 [frame16]⟩

/-- Counterexample for C1: the block-alternating schedule of two
`processAudioChunk` runs for the same session is admissible — the executor
accepts it and produces an interleaved stage trace in which the second
run's stages fall between stages of the first (its STT call runs between
the first run's STT call and transcription emit, and so on) — and the
schedule is not serial, so a second call issued while one run is in flight
is not queued behind it and the stages of the two runs do interleave. -/
theorem pipeline_runs_interleave_cex :
    (execSched altSched pipelineRunBlocks pipelineRunBlocks).isSome = true ∧
    serialSched altSched = false ∧
    execSched altSched pipelineRunBlocks pipelineRunBlocks
      = some [(false, Stage.sttCall), (true, Stage.sttCall),
              (false, Stage.emitTranscription), (false, Stage.translateCall),
              (true, Stage.emitTranscription), (true, Stage.translateCall),
              (false, Stage.ttsCall), (true, Stage.ttsCall),
              (false, Stage.emitTranslation), (true, Stage.emitTranslation)] := by
  decide

/-- Claim C1 (amended): `processAudioChunk` carries no per-session
concurrency control — neither `SessionData` nor the pipeline holds a lock,
queue, or in-flight flag — so when two runs for the same session are
pending, every schedule that gives each run exactly its four atomic blocks
(the synchronous continuations between its awaits) is admissible,
including interleaved ones: runs are not serialized and a new call is not
queued behind the in-flight one. -/
theorem pipeline_runs_not_serialized (s : List Bool)
    (h0 : s.count false = pipelineRunBlocks.length)
    (h1 : s.count true = pipelineRunBlocks.length) :
    (execSched s pipelineRunBlocks pipelineRunBlocks).isSome :=
  execSched_isSome_of_counts s pipelineRunBlocks pipelineRunBlocks h0 h1

/-- Witness for C1 (amended): the alternating schedule has four turns per
run, so it is admissible. -/
theorem pipeline_runs_not_serialized_witness :
    (execSched altSched pipelineRunBlocks pipelineRunBlocks).isSome :=
  pipeline_runs_not_serialized altSched (by decide) (by decide)
